import Mathlib

/-!
Verification development for the bc-ts repository: a shallow embedding of the
request/pagination/error-classification pipeline (error categorizer, structured
error factories, request building, and the collection list iterator), with
theorems settling the specification claims.

Embedded sources:
* `src/src/error/categorize.ts` — error taxonomy, code tables, `categorizeError`.
* `src/src/error/error.ts` and `src/unnamed/part_006` — the `BCError` class draft
  present in the snapshot (constructor, query methods, factories).
* `src/src/client/client.ts` — request building (`BCClient.request`) and the
  token wrapper (`BCClient.#getToken`).
* `src/src/pages/api-page.ts` — the `ApiPage.list` cursor loop.
JavaScript truthiness (empty string, zero, `undefined`) is modelled explicitly
wherever the source relies on it.
-/

namespace BC

/-! ### JSON values and shared record shapes -/

/-- A JSON value, the model of an untyped response body (`unknown` in the source).
Objects keep their fields as an association list in insertion order. -/
inductive JsonValue : Type where
  | null : JsonValue
  | bool : Bool → JsonValue
  | num : Int → JsonValue
  | str : String → JsonValue
  | arr : List JsonValue → JsonValue
  | obj : List (String × JsonValue) → JsonValue
deriving Repr

/-- A validation issue `{message, path}` as produced by `parseSchema`
(`src/unnamed/part_012`). -/
structure Issue where
  message : String
  path : String
deriving DecidableEq, Repr

/-- The `{code, message}` body of the vendor error envelope. -/
structure ErrBody where
  code : String
  message : String
deriving DecidableEq, Repr

/-- The vendor error envelope `{error: {code, message}}` (`ErrorResponse` in
`src/src/error/error.ts` and `src/unnamed/part_006`). -/
structure ErrorResponse where
  error : ErrBody
deriving DecidableEq, Repr

/-- A transport-level error as seen by the factories: a message plus the
optional Node.js `code` property (`nodeError.code` in `src/unnamed/part_006`). -/
structure NodeError where
  message : String
  code : Option String
deriving DecidableEq, Repr

/-! ### Error taxonomy (`src/src/error/categorize.ts`) -/

/-- `BCErrorCategory` from `src/src/error/categorize.ts` lines 4-16. -/
inductive BCErrorCategory : Type where
  | CLIENT_ERROR
  | NETWORK_ERROR
  | NOT_FOUND
  | CONFLICT
  | VALIDATION
  | AUTHORIZATION
  | AUTHENTICATION
  | SERVER_ERROR
  | BUSINESS_LOGIC
  | PARSING_ERROR
  | UNKNOWN
deriving DecidableEq, Repr

/-- `BCErrorSubcategory` from `src/src/error/categorize.ts` lines 24-69. -/
inductive BCErrorSubcategory : Type where
  | TOKEN_ERROR
  | NETWORK_ERROR
  | MALFORMED_REQUEST
  | INVALID_URL
  | SYNTAX_ERROR
  | INVALID_TOKEN
  | MISSING_REQUIRED_FIELD
  | METHOD_NOT_ALLOWED
  | METHOD_NOT_IMPLEMENTED
  | RESOURCE_NOT_FOUND
  | RECORD_NOT_FOUND
  | COMPANY_NOT_FOUND
  | DUPLICATE_KEY
  | ENTITY_CHANGED
  | FIELD_VALIDATION
  | STRING_LENGTH_EXCEEDED
  | INVALID_GUID
  | INVALID_DATETIME
  | FILTER_ERROR
  | ODATA_TYPE_ERROR
  | ODATA_PROPERTY_NOT_FOUND
  | INVALID_TABLE_RELATION
  | DATA_ACCESS_ERROR
  | DATABASE_CONNECTION
  | TENANT_UNAVAILABLE
  | DIALOG_EXCEPTION
  | CALLBACK_NOT_ALLOWED
  | EVALUATE_EXCEPTION
  | SCHEMA_VALIDATION
  | UNEXPECTED_RESPONSE_FORMAT
deriving DecidableEq, Repr

/-- `BCRetryStrategy` from `src/src/error/categorize.ts` lines 77-82. -/
inductive BCRetryStrategy : Type where
  | NO_RETRY
  | IMMEDIATE_RETRY
  | EXPONENTIAL_BACKOFF
  | REFRESH_TOKEN
deriving DecidableEq, Repr

/-- `ErrorCodeGroup` from `src/src/error/categorize.ts` lines 88-92. -/
structure ErrorCodeGroup where
  category : BCErrorCategory
  subcategory : BCErrorSubcategory
  retryStrategy : BCRetryStrategy
deriving DecidableEq, Repr

open BCErrorCategory BCErrorSubcategory BCRetryStrategy in
/-- `ERROR_CODE_MAPPINGS` from `src/src/error/categorize.ts` lines 94-305: the
exact-match code table, in insertion order. -/
def ERROR_CODE_MAPPINGS : List (String × ErrorCodeGroup) :=
  [ ("Authentication_TokenRequest", ⟨AUTHENTICATION, TOKEN_ERROR, REFRESH_TOKEN⟩)
  , ("BadRequest_ResourceNotFound", ⟨NOT_FOUND, RESOURCE_NOT_FOUND, NO_RETRY⟩)
  , ("BadRequest_NotFound", ⟨CLIENT_ERROR, INVALID_URL, NO_RETRY⟩)
  , ("BadRequest_InvalidRequestUrl", ⟨CLIENT_ERROR, INVALID_URL, NO_RETRY⟩)
  , ("BadRequest_InvalidToken", ⟨CLIENT_ERROR, INVALID_TOKEN, REFRESH_TOKEN⟩)
  , ("BadRequest_InvalidOperation", ⟨VALIDATION, FIELD_VALIDATION, NO_RETRY⟩)
  , ("BadRequest_RequiredParamNotProvided", ⟨VALIDATION, MISSING_REQUIRED_FIELD, NO_RETRY⟩)
  , ("BadRequest_MethodNotAllowed", ⟨CLIENT_ERROR, METHOD_NOT_ALLOWED, NO_RETRY⟩)
  , ("BadRequest_MethodNotImplemented", ⟨CLIENT_ERROR, METHOD_NOT_IMPLEMENTED, NO_RETRY⟩)
  , ("Request_EntityChanged", ⟨CONFLICT, ENTITY_CHANGED, NO_RETRY⟩)
  , ("Internal_EntityWithSameKeyExists", ⟨CONFLICT, DUPLICATE_KEY, NO_RETRY⟩)
  , ("Internal_RecordNotFound", ⟨NOT_FOUND, RECORD_NOT_FOUND, NO_RETRY⟩)
  , ("Internal_CompanyNotFound", ⟨NOT_FOUND, COMPANY_NOT_FOUND, NO_RETRY⟩)
  , ("Internal_DataNotFoundFilter", ⟨NOT_FOUND, RECORD_NOT_FOUND, NO_RETRY⟩)
  , ("Internal_InvalidTableRelation", ⟨VALIDATION, INVALID_TABLE_RELATION, NO_RETRY⟩)
  , ("Internal_ServerError", ⟨SERVER_ERROR, DATABASE_CONNECTION, EXPONENTIAL_BACKOFF⟩)
  , ("Internal_TenantUnavailable", ⟨SERVER_ERROR, TENANT_UNAVAILABLE, EXPONENTIAL_BACKOFF⟩)
  , ("Application_DialogException", ⟨BUSINESS_LOGIC, DIALOG_EXCEPTION, NO_RETRY⟩)
  , ("Application_FieldValidationException", ⟨VALIDATION, FIELD_VALIDATION, NO_RETRY⟩)
  , ("Application_StringExceededLength", ⟨VALIDATION, STRING_LENGTH_EXCEEDED, NO_RETRY⟩)
  , ("Application_InvalidGUID", ⟨VALIDATION, INVALID_GUID, NO_RETRY⟩)
  , ("Application_FilterErrorException", ⟨VALIDATION, FILTER_ERROR, NO_RETRY⟩)
  , ("Application_EvaluateException", ⟨BUSINESS_LOGIC, EVALUATE_EXCEPTION, NO_RETRY⟩)
  , ("Application_CallbackNotAllowed", ⟨BUSINESS_LOGIC, CALLBACK_NOT_ALLOWED, NO_RETRY⟩)
  , ("Unauthorized", ⟨AUTHENTICATION, INVALID_TOKEN, REFRESH_TOKEN⟩)
  ]

open BCErrorCategory BCErrorSubcategory BCRetryStrategy in
/-- `PREFIX_DEFAULTS` from `src/src/error/categorize.ts` lines 308-357: the
code-prefix default table, in insertion order. -/
def PREFIX_DEFAULTS : List (String × ErrorCodeGroup) :=
  [ ("BadRequest_", ⟨CLIENT_ERROR, MALFORMED_REQUEST, NO_RETRY⟩)
  , ("Request_", ⟨CONFLICT, ENTITY_CHANGED, NO_RETRY⟩)
  , ("Internal_", ⟨SERVER_ERROR, DATABASE_CONNECTION, EXPONENTIAL_BACKOFF⟩)
  , ("Application_", ⟨BUSINESS_LOGIC, DIALOG_EXCEPTION, NO_RETRY⟩)
  , ("Authentication_", ⟨AUTHENTICATION, INVALID_TOKEN, REFRESH_TOKEN⟩)
  , ("Authorization_", ⟨AUTHORIZATION, FIELD_VALIDATION, NO_RETRY⟩)
  ]

/-- JavaScript `code.startsWith(pre)`, via character lists. -/
def jsStartsWith (code pre : String) : Bool :=
  pre.data.isPrefixOf code.data

open BCErrorCategory BCErrorSubcategory BCRetryStrategy in
/-- The global fallback group of `categorizeError`
(`src/src/error/categorize.ts` lines 378-383). -/
def unknownGroup : ErrorCodeGroup :=
  ⟨UNKNOWN, MALFORMED_REQUEST, NO_RETRY⟩

/-- `categorizeError` from `src/src/error/categorize.ts` lines 360-384: exact
match in `ERROR_CODE_MAPPINGS` first, else the first matching prefix of
`PREFIX_DEFAULTS` (iterated in insertion order), else the fallback group. -/
def categorizeError (code : String) : ErrorCodeGroup :=
  match ERROR_CODE_MAPPINGS.lookup code with
  | some exactMatch => exactMatch
  | none =>
    match PREFIX_DEFAULTS.find? (fun p => jsStartsWith code p.1) with
    | some p => p.2
    | none => unknownGroup

/-! ### Envelope validation (`validateErrorResponse`, identical in
`src/src/error/error.ts` lines 16-43 and `src/unnamed/part_006` lines 21-48) -/

/-- `validateErrorResponse`: checks that a raw body matches
`{error: {code: string, message: string}}`, throwing (modelled as `Except.error`)
otherwise. The JavaScript truthiness/`typeof` checks are reproduced per
constructor: `null`/primitive bodies fail the first guard; arrays pass
`typeof data === "object"` but have no `error`/`code` string properties. -/
def validateErrorResponse (data : JsonValue) : Except String ErrorResponse :=
  match data with
  | .obj fields =>
    match fields.lookup "error" with
    | none => .error "Missing 'error' object in BC response"
    | some ev =>
      match ev with
      | .obj efields =>
        match efields.lookup "code", efields.lookup "message" with
        | some (.str c), some (.str m) => .ok ⟨⟨c, m⟩⟩
        | some (.str _), _ => .error "Expected string for error.message"
        | _, _ => .error "Expected string for error.code"
      | .null => .error "Expected string for error.code"
      | .arr _ => .error "Expected string for error.code"
      | _ => .error "Missing 'error' object in BC response"
  | .arr _ => .error "Missing 'error' object in BC response"
  | _ => .error "Expected object for BC error response"

/-! ### The snapshot's `BCError` class (`src/src/error/error.ts`,
factories `fromNetworkError`/`fromJsonError`/3-argument `fromHttpResponse`
from `src/unnamed/part_006`) -/

namespace ErrorTs

/-- The `BCError` instance state: fields of the class in
`src/src/error/error.ts` lines 138-148 / `src/unnamed/part_006` lines 59-69
(minus the `Date` timestamp and stack trace, which carry no logic). -/
structure BCError where
  name : String
  message : String
  code : String
  httpStatus : Nat
  category : BCErrorCategory
  subcategory : BCErrorSubcategory
  retryStrategy : BCRetryStrategy
  originalError : ErrorResponse
  correlationId : Option String
  validationDetails : Option (List Issue)
  originalResponse : Option JsonValue
deriving Repr

/-- The `BCError` constructor (`src/src/error/error.ts` lines 150-176):
message defaulting via `||`, categorization of the envelope code, and the
truthy guard `if (correlationId)` (an empty string is dropped). -/
def BCError.make (er : ErrorResponse) (httpStatus : Nat) (cid : Option String) :
    BCError :=
  { name := "BCError"
  , message :=
      if er.error.message = "" then "Unknown Business Central error"
      else er.error.message
  , code := er.error.code
  , httpStatus := httpStatus
  , category := (categorizeError er.error.code).category
  , subcategory := (categorizeError er.error.code).subcategory
  , retryStrategy := (categorizeError er.error.code).retryStrategy
  , originalError := er
  , correlationId :=
      match cid with
      | some s => if s = "" then none else some s
      | none => none
  , validationDetails := none
  , originalResponse := none }

/-- `BCError.isRetryable` (`src/src/error/error.ts` lines 181-183). -/
def BCError.isRetryable (e : BCError) : Bool :=
  e.retryStrategy ≠ BCRetryStrategy.NO_RETRY

/-- `BCError.hasValidationDetails` (`src/src/error/error.ts` lines 195-197):
`Boolean(this.validationDetails?.length)` — `undefined` and length 0 are falsy. -/
def BCError.hasValidationDetails (e : BCError) : Bool :=
  !(e.validationDetails.getD []).isEmpty

/-- `BCError.getValidationFields` (`src/src/error/error.ts` lines 202-204). -/
def BCError.getValidationFields (e : BCError) : List String :=
  (e.validationDetails.getD []).map Issue.path

/-- `BCError.fromParseResult` (`src/src/error/error.ts` lines 253-277): the
schema-validation-issues factory, default `httpStatus = 200`; overrides the
categorization with `CLIENT_ERROR`/`SCHEMA_VALIDATION`/`NO_RETRY` and stores
the issues. -/
def BCError.fromParseResult (issues : List Issue) (httpStatus : Nat := 200)
    (cid : Option String := none) : BCError :=
  let er : ErrorResponse :=
    ⟨⟨"Client_SchemaMismatch",
      "Schema validation failed. The provided schema does not match Business Central's response format."⟩⟩
  let e := BCError.make er httpStatus cid
  { e with
      category := BCErrorCategory.CLIENT_ERROR
    , subcategory := BCErrorSubcategory.SCHEMA_VALIDATION
    , retryStrategy := BCRetryStrategy.NO_RETRY
    , validationDetails := some issues }

/-- `BCError.fromUnexpectedResponse` (`src/src/error/error.ts` lines 312-333):
fixed synthetic envelope, categorization overridden with
`PARSING_ERROR`/`UNEXPECTED_RESPONSE_FORMAT`/`NO_RETRY`, raw body stored in
`originalResponse`. -/
def BCError.fromUnexpectedResponse (data : JsonValue) (httpStatus : Nat)
    (cid : Option String) : BCError :=
  let er : ErrorResponse :=
    ⟨⟨"Client_UnexpectedResponseFormat",
      "Business Central returned an unexpected response format"⟩⟩
  let e := BCError.make er httpStatus cid
  { e with
      category := BCErrorCategory.PARSING_ERROR
    , subcategory := BCErrorSubcategory.UNEXPECTED_RESPONSE_FORMAT
    , retryStrategy := BCRetryStrategy.NO_RETRY
    , originalResponse := some data }

/-- `BCError.fromHttpResponse` (`src/unnamed/part_006` lines 306-321, the
3-argument form called by `src/src/client/client.ts` line 185): validate the
body as the vendor error envelope; on success construct from it, otherwise
fall back to `fromUnexpectedResponse`. -/
def BCError.fromHttpResponse (status : Nat) (data : JsonValue) (cid : String) :
    BCError :=
  match validateErrorResponse data with
  | .ok er => BCError.make er status (some cid)
  | .error _ => BCError.fromUnexpectedResponse data status (some cid)

/-- The native error codes that `fromNetworkError`'s `switch` maps to
`NO_RETRY` (`src/unnamed/part_006` lines 209-220): `ENOTFOUND` and the three
certificate errors. -/
def noRetryNetworkCodes : List (Option String) :=
  [some "ENOTFOUND", some "CERT_HAS_EXPIRED",
   some "UNABLE_TO_VERIFY_LEAF_SIGNATURE", some "SELF_SIGNED_CERT_IN_CHAIN"]

/-- `BCError.fromNetworkError` (`src/unnamed/part_006` lines 173-246): the
`switch` on `nodeError.code` picks subcategory and retry strategy, the message
embeds the native code when it is truthy, the error is constructed with
`httpStatus 0` and then its categorization overridden. No `cause` is attached. -/
def BCError.fromNetworkError (ne : NodeError) : BCError :=
  let sub : BCErrorSubcategory :=
    match ne.code with
    | some "EAI_NONAME" => BCErrorSubcategory.INVALID_URL
    | some "ENOTFOUND" => BCErrorSubcategory.INVALID_URL
    | _ => BCErrorSubcategory.MALFORMED_REQUEST
  let strat : BCRetryStrategy :=
    match ne.code with
    | some "ENOTFOUND" => BCRetryStrategy.NO_RETRY
    | some "CERT_HAS_EXPIRED" => BCRetryStrategy.NO_RETRY
    | some "UNABLE_TO_VERIFY_LEAF_SIGNATURE" => BCRetryStrategy.NO_RETRY
    | some "SELF_SIGNED_CERT_IN_CHAIN" => BCRetryStrategy.NO_RETRY
    | _ => BCRetryStrategy.EXPONENTIAL_BACKOFF
  let errorMessage : String :=
    match ne.code with
    | some c =>
      if c = "" then "Network error: " ++ ne.message
      else "Network error (" ++ c ++ "): " ++ ne.message
    | none => "Network error: " ++ ne.message
  let er : ErrorResponse := ⟨⟨"Client_NetworkError", errorMessage⟩⟩
  let e := BCError.make er 0 none
  { e with
      category := BCErrorCategory.NETWORK_ERROR
    , subcategory := sub
    , retryStrategy := strat }

/-- `BCError.fromJsonError` (`src/unnamed/part_006` lines 251-271): JSON parse
failure at the received status; categorization overridden with
`PARSING_ERROR`/`UNEXPECTED_RESPONSE_FORMAT`/`NO_RETRY`. -/
def BCError.fromJsonError (jsonError : NodeError) (httpStatus : Nat)
    (cid : String) : BCError :=
  let er : ErrorResponse :=
    ⟨⟨"Client_JSONParsingError",
      "Failed to parse JSON response: " ++ jsonError.message⟩⟩
  let e := BCError.make er httpStatus (some cid)
  { e with
      category := BCErrorCategory.PARSING_ERROR
    , subcategory := BCErrorSubcategory.UNEXPECTED_RESPONSE_FORMAT
    , retryStrategy := BCRetryStrategy.NO_RETRY }

end ErrorTs

/-! ### Request executor (`src/src/client/client.ts`) -/

namespace ClientTs

/-- HTTP methods accepted by `RequestOpts` (`src/src/client/client.ts` line 50). -/
inductive HttpMethod : Type where
  | GET
  | POST
  | PATCH
  | DELETE
deriving DecidableEq, Repr

/-- `RequestOpts` (`src/src/client/client.ts` lines 47-55): the per-request
options; `none` models an absent (`undefined`) property. `params` is modelled
as the already-built query string (`params.toQuery()`). -/
structure RequestOpts where
  method : Option HttpMethod := none
  params : Option String := none
  payload : Option JsonValue := none
  timeout : Option Nat := none
  serverPageSize : Option Nat := none
deriving Repr

/-- The client state relevant to `request`: the pre-built `apiURL`, the
constructor-stored `timeout`, and the user agent
(`src/src/client/client.ts` lines 72-89). -/
structure BCClientData where
  apiURL : String
  timeout : Nat
  userAgent : String
deriving DecidableEq, Repr

/-- The timeout stored at construction by `parseConfig`
(`src/src/client/client.ts` line 228): `config.timeout || DEFAULT_TIMEOUT`,
where `0` is falsy. -/
def parseConfigTimeout (cfgTimeout : Option Nat) : Nat :=
  match cfgTimeout with
  | some t => if t = 0 then 30000 else t
  | none => 30000

/-- Leading-slash strip (`src/src/client/client.ts` line 120):
`endpoint.startsWith("/") ? endpoint.replace("/", "") : endpoint` — removes
exactly the first character when it is a slash. -/
def stripLeadingSlash (endpoint : String) : String :=
  match endpoint.data with
  | '/' :: rest => String.mk rest
  | _ => endpoint

/-- The header list built by `request` (`src/src/client/client.ts`
lines 134-155): fixed headers, the conditional read intent (GET), `If-Match`
(PATCH), and the paging preference when `serverPageSize` is truthy. -/
def buildHeaders (userAgent token : String) (method : HttpMethod)
    (serverPageSize : Option Nat) : List (String × String) :=
  [ ("Authorization", "Bearer " ++ token)
  , ("Accepts", "application/json")
  , ("Content-Type", "application/json")
  , ("User-Agent", userAgent) ]
  ++ (if method = HttpMethod.GET then [("Data-Access-Intent", "ReadOnly")] else [])
  ++ (if method = HttpMethod.PATCH then [("If-Match", "*")] else [])
  ++ (match serverPageSize with
      | some n => if n = 0 then [] else [("Prefer", "odata.maxpagesize=" ++ toString n)]
      | none => [])

/-- The outgoing request assembled by `request` before it is sent
(`src/src/client/client.ts` lines 108-168): URL, method, headers, the abort
timeout, and the serialized payload. -/
structure BuiltRequest where
  url : String
  method : HttpMethod
  headers : List (String × String)
  timeoutMs : Nat
  body : Option JsonValue
deriving Repr

/-- The request-building portion of `BCClient.request`
(`src/src/client/client.ts` lines 108-168). Note line 115: the timeout is
destructured from `opts` with the literal default `30_000`; the client's
stored `timeout` is not read. -/
def buildRequest (c : BCClientData) (endpoint : String) (token : String)
    (opts : RequestOpts) : BuiltRequest :=
  let method := opts.method.getD HttpMethod.GET
  let timeout := opts.timeout.getD 30000
  let ep := stripLeadingSlash endpoint
  let baseUrl := c.apiURL ++ "/" ++ ep
  let url :=
    match opts.params with
    | some q => baseUrl ++ "?" ++ q
    | none => baseUrl
  { url := url
  , method := method
  , headers := buildHeaders c.userAgent token method opts.serverPageSize
  , timeoutMs := timeout
  , body := opts.payload }

/-- `BCClient.#getToken` (`src/src/client/client.ts` lines 92-104): forwards a
successful token, and wraps any provider failure in a `BCError` built from a
synthetic `Authentication_TokenRequest` envelope carrying the failure's
message, with `httpStatus 401`. The original failure object is not attached. -/
def getTokenWrap (res : Except NodeError String) :
    Except ErrorTs.BCError String :=
  match res with
  | .ok token => .ok token
  | .error err =>
    .error (ErrorTs.BCError.make ⟨⟨"Authentication_TokenRequest", err.message⟩⟩ 401 none)

end ClientTs

/-! ### The structured-error value of the spec's taxonomy

The `BCError` revision exercised by `src/src/error/error.test.ts` and called by
`src/src/pages/api-page.ts` (`fromSchemaValidation`, the `responseData` field)
and `src/src/client/client.ts` is not present in the snapshot — only its tests
and callers are. The definitions in this namespace model it from the spec
(§3 data model, §4.1 factory behaviors) and are marked as such. -/

namespace SpecModel

/-- Modelled from the spec: the closed error-category enumeration of §3
(`AUTHENTICATION, AUTHORIZATION, BAD_REQUEST, NOT_FOUND, CONFLICT,
SCHEMA_MISMATCH, NETWORK_ERROR, UNEXPECTED_RESPONSE, SERVER_ERROR, UNKNOWN`),
which is the category set asserted by `src/src/error/error.test.ts`; absent
from the snapshot's source files. -/
inductive SpecCategory : Type where
  | AUTHENTICATION
  | AUTHORIZATION
  | BAD_REQUEST
  | NOT_FOUND
  | CONFLICT
  | SCHEMA_MISMATCH
  | NETWORK_ERROR
  | UNEXPECTED_RESPONSE
  | SERVER_ERROR
  | UNKNOWN
deriving DecidableEq, Repr

/-- Modelled from the spec: the Structured Error of §3 — category, retry
strategy, HTTP status, optional correlation id, the mutually-contextual
`serverError` / `responseData` / `validationDetails` payloads, and the
underlying `cause`. This is the error value whose class definition is missing
from the snapshot (only `src/src/error/error.test.ts` and the callers use it). -/
structure BCError where
  message : String
  code : String
  category : SpecCategory
  retryStrategy : BCRetryStrategy
  httpStatus : Nat
  correlationId : Option String
  serverError : Option ErrBody
  responseData : Option JsonValue
  validationDetails : Option (List Issue)
  cause : Option NodeError
deriving Repr

/-- Modelled from the spec: the schema-validation-issues factory of §4.1
(`fromSchemaValidation` in `src/src/error/error.test.ts`): category
SCHEMA_MISMATCH, NO_RETRY, the fixed message asserted by the test, issues
stored as `validationDetails`, default status 200, no correlation id. -/
def BCError.fromSchemaValidation (issues : List Issue) (httpStatus : Nat := 200) :
    BCError :=
  { message :=
      "Schema validation failed. The provided schema does not match Business Central's response format."
  , code := "Client_SchemaMismatch"
  , category := SpecCategory.SCHEMA_MISMATCH
  , retryStrategy := BCRetryStrategy.NO_RETRY
  , httpStatus := httpStatus
  , correlationId := none
  , serverError := none
  , responseData := none
  , validationDetails := some issues
  , cause := none }

/-- Modelled from the spec: the unexpected-response factory of §4.1: category
UNEXPECTED_RESPONSE, NO_RETRY, fixed message, raw body kept as `responseData`. -/
def BCError.fromUnexpectedResponse (data : JsonValue) (httpStatus : Nat)
    (cid : Option String) : BCError :=
  { message := "Business Central returned an unexpected response format"
  , code := "Client_UnexpectedResponseFormat"
  , category := SpecCategory.UNEXPECTED_RESPONSE
  , retryStrategy := BCRetryStrategy.NO_RETRY
  , httpStatus := httpStatus
  , correlationId := cid
  , serverError := none
  , responseData := some data
  , validationDetails := none
  , cause := none }

/-- Modelled from the spec: the HTTP-response factory of §4.1. When the body
matches the error envelope, the error carries the vendor `{code, message}` as
`serverError` and category/strategy from the code→category table (passed here
as the parameter `cat`, since that revision's table is not in the snapshot);
otherwise it is the unexpected-response error. -/
def BCError.fromHttpResponse (cat : String → SpecCategory × BCRetryStrategy)
    (status : Nat) (data : JsonValue) (cid : Option String) : BCError :=
  match validateErrorResponse data with
  | .ok er =>
    { message :=
        if er.error.message = "" then "Unknown Business Central error"
        else er.error.message
    , code := er.error.code
    , category := (cat er.error.code).1
    , retryStrategy := (cat er.error.code).2
    , httpStatus := status
    , correlationId := cid
    , serverError := some er.error
    , responseData := none
    , validationDetails := none
    , cause := none }
  | .error _ => BCError.fromUnexpectedResponse data status cid

/-- Modelled from the spec: the token-acquisition-failure factory of §4.1
(`fromGetToken` in `src/src/error/error.test.ts`): category AUTHENTICATION,
REFRESH_TOKEN, status 401, the original failure kept as `cause`, message
wrapping the original message (exact wording unspecified by the spec). -/
def BCError.fromGetToken (err : NodeError) : BCError :=
  { message := "Failed to acquire token: " ++ err.message
  , code := "Authentication_TokenRequest"
  , category := SpecCategory.AUTHENTICATION
  , retryStrategy := BCRetryStrategy.REFRESH_TOKEN
  , httpStatus := 401
  , correlationId := none
  , serverError := none
  , responseData := none
  , validationDetails := none
  , cause := some err }

/-- Modelled from the spec: the network-failure factory of §4.1: category
NETWORK_ERROR, EXPONENTIAL_BACKOFF unconditionally, status 0, original error
as `cause`, message embedding the native code when available. -/
def BCError.fromNetworkFailure (err : NodeError) : BCError :=
  { message :=
      match err.code with
      | some c => "Network error (" ++ c ++ "): " ++ err.message
      | none => "Network error: " ++ err.message
  , code := "Client_NetworkError"
  , category := SpecCategory.NETWORK_ERROR
  , retryStrategy := BCRetryStrategy.EXPONENTIAL_BACKOFF
  , httpStatus := 0
  , correlationId := none
  , serverError := none
  , responseData := none
  , validationDetails := none
  , cause := some err }

/-- Modelled from the spec: the response-body-parse-failure factory of §4.1:
category UNEXPECTED_RESPONSE, NO_RETRY, the parse error as `cause`, the HTTP
status that was received. -/
def BCError.fromJsonFailure (err : NodeError) (httpStatus : Nat)
    (cid : Option String) : BCError :=
  { message := "Failed to parse JSON response: " ++ err.message
  , code := "Client_JSONParsingError"
  , category := SpecCategory.UNEXPECTED_RESPONSE
  , retryStrategy := BCRetryStrategy.NO_RETRY
  , httpStatus := httpStatus
  , correlationId := cid
  , serverError := none
  , responseData := none
  , validationDetails := none
  , cause := some err }

end SpecModel

/-! ### Collection pager (`ApiPage.list`, `src/src/pages/api-page.ts` lines 61-125) -/

namespace ApiPageTs

/-- The `value` array of the response envelope, per the guard
`!data.value || !Array.isArray(data.value)` (`src/src/pages/api-page.ts`
line 85): `some items` exactly when the `value` property exists and is an
array (an empty array is truthy); `none` for missing, falsy or non-array
values and for non-object bodies (property access yields `undefined`). -/
def envValueArray (data : JsonValue) : Option (List JsonValue) :=
  match data with
  | .obj fields =>
    match fields.lookup "value" with
    | some (.arr items) => some items
    | _ => none
  | _ => none

/-- The continuation link of the envelope, per the truthy guard
`if (data["@odata.nextLink"])` (`src/src/pages/api-page.ts` line 96). The
link is modelled as a string property; an empty string is falsy and treated
below like an absent link. -/
def envNextLinkStr (data : JsonValue) : Option String :=
  match data with
  | .obj fields =>
    match fields.lookup "@odata.nextLink" with
    | some (.str s) => some s
    | _ => none
  | _ => none

/-- The cursor update of one loop iteration (`src/src/pages/api-page.ts`
lines 96-102): when the envelope carries a truthy continuation link, the new
cursor is the link's `skipToken` query parameter (`extract`), defaulting to
`""` via `|| ""`; otherwise the cursor is left unchanged. -/
def nextCursor (extract : String → Option String) (data : JsonValue)
    (skipToken : String) : String :=
  match envNextLinkStr data with
  | some l => if l = "" then skipToken else (extract l).getD ""
  | none => skipToken

/-- The cap test `pOpts?.maxResults && itemCount >= pOpts.maxResults`
(`src/src/pages/api-page.ts` line 119): an absent or zero (falsy) cap never
stops the iteration. -/
def capHit (maxResults : Option Nat) (count : Nat) : Bool :=
  match maxResults with
  | some m => if m = 0 then false else decide (m ≤ count)
  | none => false

/-- The structured error thrown for a malformed list envelope
(`src/src/pages/api-page.ts` lines 86-93): `BCError.fromSchemaValidation` with
the fixed issue, then `err.responseData = data`. -/
def missingValueError (data : JsonValue) : SpecModel.BCError :=
  let e := SpecModel.BCError.fromSchemaValidation
    [⟨"Missing value property on list response.", "root.value"⟩]
  { e with responseData := some data }

/-- Outcome of one iteration of the `while (more)` loop, as observed by a
consumer draining the generator. -/
inductive StepOutcome (T : Type) : Type where
  | crash
  | failPage (e : SpecModel.BCError)
  | done (nextToken : String)
  | failItem (yielded : List T) (e : SpecModel.BCError)
  | page (yielded : List T) (newCount : Nat) (nextToken : String) (capReached : Bool)
deriving Repr

/-- The `for (const item of data.value)` body (`src/src/pages/api-page.ts`
lines 109-123): validate each item in order; on issues fail the whole
iteration (items already yielded stay yielded); on success yield, increment
the counter, and stop mid-page when the cap is reached. -/
def processItems {T : Type} (schema : JsonValue → Except (List Issue) T)
    (maxResults : Option Nat) (nextToken : String) :
    List JsonValue → List T → Nat → StepOutcome T
  | [], acc, count => .page acc.reverse count nextToken false
  | item :: rest, acc, count =>
    match schema item with
    | .error issues =>
      .failItem acc.reverse (SpecModel.BCError.fromSchemaValidation issues)
    | .ok v =>
      let count' := count + 1
      if capHit maxResults count' then .page (v :: acc).reverse count' nextToken true
      else processItems schema maxResults nextToken rest (v :: acc) count'

/-- One iteration of the list loop (`src/src/pages/api-page.ts` lines 69-124),
given the already-received envelope `data`: the `value` guard runs first
(a `null` body crashes the property access with a raw TypeError), then the
cursor update, then the empty-page termination check, then the per-item pass. -/
def listStep {T : Type} (schema : JsonValue → Except (List Issue) T)
    (extract : String → Option String) (maxResults : Option Nat)
    (data : JsonValue) (skipToken : String) (itemCount : Nat) : StepOutcome T :=
  match data with
  | .null => .crash
  | _ =>
    match envValueArray data with
    | none => .failPage (missingValueError data)
    | some items =>
      let tok := nextCursor extract data skipToken
      if items.isEmpty then .done tok
      else processItems schema maxResults tok items [] itemCount

/-- Result of draining the whole generator: the yielded items in order, the
number of requests issued, and how the iteration ended. -/
inductive ListResult (T : Type) : Type where
  | ok (items : List T) (requests : Nat)
  | failed (items : List T) (requests : Nat) (e : SpecModel.BCError)
  | crashed (items : List T) (requests : Nat)
deriving Repr

/-- The full `list` loop against a server (a map from the optional
`$skipToken` query parameter to the response body), with fuel bounding the
number of iterations; the token is appended only when truthy
(`if (skipToken)`, `src/src/pages/api-page.ts` line 75). -/
def listRun {T : Type} (schema : JsonValue → Except (List Issue) T)
    (extract : String → Option String) (server : Option String → JsonValue)
    (maxResults : Option Nat) :
    Nat → String → Nat → List T → Nat → Option (ListResult T)
  | 0, _, _, _, _ => none
  | Nat.succ fuel, skipToken, itemCount, acc, reqs =>
    let tokenParam := if skipToken = "" then none else some skipToken
    let data := server tokenParam
    match listStep schema extract maxResults data skipToken itemCount with
    | .crash => some (.crashed acc (reqs + 1))
    | .failPage e => some (.failed acc (reqs + 1) e)
    | .failItem ys e => some (.failed (acc ++ ys) (reqs + 1) e)
    | .done _ => some (.ok acc (reqs + 1))
    | .page ys count tok stop =>
      if stop then some (.ok (acc ++ ys) (reqs + 1))
      else listRun schema extract server maxResults fuel tok count (acc ++ ys) (reqs + 1)

/-- Draining `list()` from its initial state: empty cursor, zero counter. -/
def listDrain {T : Type} (schema : JsonValue → Except (List Issue) T)
    (extract : String → Option String) (server : Option String → JsonValue)
    (maxResults : Option Nat) (fuel : Nat) : Option (ListResult T) :=
  listRun schema extract server maxResults fuel "" 0 [] 0

end ApiPageTs

/-! ### The five-page mock collection scenario (spec §8) -/

namespace Scenario

/-- A list envelope with the given numeric items and optional continuation
link, in the vendor shape `{value: [...], "@odata.nextLink"?: string}`. -/
def mockPage (items : List Int) (link : Option String) : JsonValue :=
  .obj ([("value", .arr (items.map JsonValue.num))]
    ++ (match link with
        | some l => [("@odata.nextLink", .str l)]
        | none => []))

/-- The mock collection endpoint of spec §8: five pages of two items each,
then a terminal empty page; keyed by the `$skipToken` parameter of the
request. -/
def mockServer : Option String → JsonValue
  | none => mockPage [1, 2] (some "t2")
  | some "t2" => mockPage [3, 4] (some "t3")
  | some "t3" => mockPage [5, 6] (some "t4")
  | some "t4" => mockPage [7, 8] (some "t5")
  | some "t5" => mockPage [9, 10] (some "t6")
  | some "t6" => mockPage [] none
  | some _ => mockPage [] none

/-- A schema capability that accepts every item unchanged. -/
def idSchema : JsonValue → Except (List Issue) JsonValue := fun j => .ok j

/-- A continuation-link extraction in which the link itself is the token. -/
def idExtract : String → Option String := fun l => some l

end Scenario

/-! ### Derived notions used by the claims -/

/-- The claim's fixed category→strategy table (spec §3/§4.1): AUTHENTICATION
maps to REFRESH_TOKEN, SERVER_ERROR and NETWORK_ERROR to EXPONENTIAL_BACKOFF,
every other category to NO_RETRY. Stated from the spec's words, to be compared
with the strategies the code actually assigns. -/
def specStrategyTable : BCErrorCategory → BCRetryStrategy
  | BCErrorCategory.AUTHENTICATION => BCRetryStrategy.REFRESH_TOKEN
  | BCErrorCategory.SERVER_ERROR => BCRetryStrategy.EXPONENTIAL_BACKOFF
  | BCErrorCategory.NETWORK_ERROR => BCRetryStrategy.EXPONENTIAL_BACKOFF
  | _ => BCRetryStrategy.NO_RETRY

/-- The group that `ERROR_CODE_MAPPINGS` assigns to `BadRequest_InvalidToken`:
category CLIENT_ERROR with strategy REFRESH_TOKEN — the one exact-table entry
whose strategy disagrees with the category→strategy table. -/
def invalidTokenGroup : ErrorCodeGroup :=
  ⟨BCErrorCategory.CLIENT_ERROR, BCErrorSubcategory.INVALID_TOKEN,
    BCRetryStrategy.REFRESH_TOKEN⟩

/-- Whether a raw body matches the vendor error envelope shape. -/
def envelopeMatches (data : JsonValue) : Bool :=
  match validateErrorResponse data with
  | .ok _ => true
  | .error _ => false

/-- Substring test used to state "the message contains the native code". -/
def strContainsSub (s sub : String) : Bool :=
  decide (sub.data <:+: s.data)

/-! ### Helper lemmas -/

theorem lookup_snd_mem {α β : Type _} [BEq α] [LawfulBEq α]
    {l : List (α × β)} {k : α} {b : β} (h : l.lookup k = some b) :
    b ∈ l.map Prod.snd := by
  rcases List.lookup_eq_some_iff.mp h with ⟨l₁, l₂, rfl, -⟩
  simp

theorem exact_table_strategy_law :
    ∀ g ∈ ERROR_CODE_MAPPINGS.map Prod.snd,
      g.retryStrategy = specStrategyTable g.category ∨ g = invalidTokenGroup := by
  decide

theorem prefix_table_strategy_law :
    ∀ g ∈ PREFIX_DEFAULTS.map Prod.snd,
      g.retryStrategy = specStrategyTable g.category := by
  decide

theorem categorize_strategy_law (code : String) :
    (categorizeError code).retryStrategy
        = specStrategyTable (categorizeError code).category
      ∨ categorizeError code = invalidTokenGroup := by
  unfold categorizeError
  split
  · next g h =>
    exact exact_table_strategy_law g (lookup_snd_mem h)
  · next h =>
    split
    · next p h2 =>
      left
      exact prefix_table_strategy_law p.2
        (List.mem_map_of_mem _ (List.mem_of_find?_eq_some h2))
    · next => left; decide

theorem isPrefixOf_total : ∀ (s p q : List Char),
    p.isPrefixOf s = true → q.isPrefixOf s = true →
    p.isPrefixOf q = true ∨ q.isPrefixOf p = true := by
  intro s
  induction s with
  | nil =>
    intro p q hp _
    cases p with
    | nil => left; cases q <;> rfl
    | cons x xs => simp [List.isPrefixOf] at hp
  | cons a s ih =>
    intro p q hp hq
    cases p with
    | nil => left; cases q <;> rfl
    | cons x xs =>
      cases q with
      | nil => right; rfl
      | cons y ys =>
        simp only [List.isPrefixOf, Bool.and_eq_true, beq_iff_eq] at hp hq ⊢
        obtain ⟨rfl, hp2⟩ := hp
        obtain ⟨rfl, hq2⟩ := hq
        rcases ih xs ys hp2 hq2 with h | h
        · left; exact ⟨rfl, h⟩
        · right; exact ⟨rfl, h⟩

theorem jsStartsWith_excl (code p q : String)
    (h1 : p.data.isPrefixOf q.data = false)
    (h2 : q.data.isPrefixOf p.data = false)
    (hp : jsStartsWith code p = true) : jsStartsWith code q = false := by
  cases h3 : jsStartsWith code q with
  | false => rfl
  | true =>
    unfold jsStartsWith at hp h3
    rcases isPrefixOf_total code.data p.data q.data hp h3 with hh | hh
    · rw [hh] at h1; exact absurd h1 (by decide)
    · rw [hh] at h2; exact absurd h2 (by decide)

theorem processItems_ne_done {T : Type} (schema : JsonValue → Except (List Issue) T)
    (maxResults : Option Nat) (nextToken : String) :
    ∀ (items : List JsonValue) (acc : List T) (count : Nat) (t : String),
      ApiPageTs.processItems schema maxResults nextToken items acc count
        ≠ ApiPageTs.StepOutcome.done t := by
  intro items
  induction items with
  | nil => intro acc count t h; simp [ApiPageTs.processItems] at h
  | cons x xs ih =>
    intro acc count t h
    rw [ApiPageTs.processItems] at h
    rcases hs : schema x with issues | v <;> rw [hs] at h
    · simp at h
    · by_cases hc : ApiPageTs.capHit maxResults (count + 1) = true
      · simp [hc] at h
      · simp only [hc, if_false, reduceIte] at h
        exact ih _ _ _ h

/-! ### Claim theorems -/

/-- Claim C5: against the mock collection endpoint serving five pages of two
items each with a terminal empty sixth page, draining `list()` with no cap
yields exactly the ten items in server order (in six requests), and draining
with `maxResults = 5` yields exactly the first five items while issuing
exactly three requests, stopping mid-page three. -/
theorem claim_C5_pagination_scenario :
    ApiPageTs.listDrain Scenario.idSchema Scenario.idExtract Scenario.mockServer
        none 10
      = some (ApiPageTs.ListResult.ok
          [JsonValue.num 1, JsonValue.num 2, JsonValue.num 3, JsonValue.num 4,
           JsonValue.num 5, JsonValue.num 6, JsonValue.num 7, JsonValue.num 8,
           JsonValue.num 9, JsonValue.num 10] 6)
    ∧ ApiPageTs.listDrain Scenario.idSchema Scenario.idExtract Scenario.mockServer
        (some 5) 10
      = some (ApiPageTs.ListResult.ok
          [JsonValue.num 1, JsonValue.num 2, JsonValue.num 3, JsonValue.num 4,
           JsonValue.num 5] 3) := by
  exact ⟨rfl, rfl⟩

/-- Claim C10: the timeout attached to the outgoing request is the per-call
`opts.timeout` when given and the hard-coded constant 30000 ms otherwise, and
the whole built request is independent of the timeout stored on the client at
construction (`parseConfigTimeout` of the config override), for every client
state and every options value. -/
theorem claim_C10_request_timeout :
    ∀ (apiURL userAgent : String) (cfg1 cfg2 : Option Nat)
      (endpoint token : String) (opts : ClientTs.RequestOpts),
      (ClientTs.buildRequest ⟨apiURL, ClientTs.parseConfigTimeout cfg1, userAgent⟩
          endpoint token opts).timeoutMs
          = opts.timeout.getD 30000
      ∧ ClientTs.buildRequest ⟨apiURL, ClientTs.parseConfigTimeout cfg1, userAgent⟩
          endpoint token opts
        = ClientTs.buildRequest ⟨apiURL, ClientTs.parseConfigTimeout cfg2, userAgent⟩
          endpoint token opts := by
  intro apiURL userAgent cfg1 cfg2 endpoint token opts
  exact ⟨rfl, rfl⟩

/-- Claim C3: evaluation of the snapshot's network-failure factory. The claim
says the strategy is EXPONENTIAL_BACKOFF for every native code; the code
returns NO_RETRY for `ENOTFOUND` (first conjuncts — the divergence, which
contradicts the repository's own test "categorizes all network errors as
retryable"), while the ECONNREFUSED conjuncts show the claimed category,
status and message behavior at that input. -/
theorem claim_C3_network_factory_at_enotfound :
    (ErrorTs.BCError.fromNetworkError
        ⟨"getaddrinfo ENOTFOUND api.businesscentral.dynamics.com", some "ENOTFOUND"⟩).category
        = BCErrorCategory.NETWORK_ERROR
    ∧ (ErrorTs.BCError.fromNetworkError
        ⟨"getaddrinfo ENOTFOUND api.businesscentral.dynamics.com", some "ENOTFOUND"⟩).retryStrategy
        = BCRetryStrategy.NO_RETRY
    ∧ (ErrorTs.BCError.fromNetworkError
        ⟨"connect ECONNREFUSED 127.0.0.1:443", some "ECONNREFUSED"⟩).category
        = BCErrorCategory.NETWORK_ERROR
    ∧ (ErrorTs.BCError.fromNetworkError
        ⟨"connect ECONNREFUSED 127.0.0.1:443", some "ECONNREFUSED"⟩).retryStrategy
        = BCRetryStrategy.EXPONENTIAL_BACKOFF
    ∧ (ErrorTs.BCError.fromNetworkError
        ⟨"connect ECONNREFUSED 127.0.0.1:443", some "ECONNREFUSED"⟩).httpStatus = 0
    ∧ (ErrorTs.BCError.fromNetworkError
        ⟨"connect ECONNREFUSED 127.0.0.1:443", some "ECONNREFUSED"⟩).message
        = "Network error (ECONNREFUSED): connect ECONNREFUSED 127.0.0.1:443"
    ∧ strContainsSub
        (ErrorTs.BCError.fromNetworkError
          ⟨"connect ECONNREFUSED 127.0.0.1:443", some "ECONNREFUSED"⟩).message
        "ECONNREFUSED" = true := by
  refine ⟨rfl, rfl, rfl, rfl, rfl, rfl, by decide⟩

/-- Claim C8: evaluation of the token wrapper `BCClient.#getToken`. Every
provider failure is wrapped into a `BCError` with category AUTHENTICATION,
strategy REFRESH_TOKEN, `httpStatus` 401 and the provider's message carried as
the error message (defaulted when empty); a successful token passes through.
The wrapped error is exactly `BCError.make` of the synthetic envelope — its
optional payload fields are all `none` and the constructed value does not
retain the original failure object, the divergence from the claim's
"preserved as cause". -/
theorem claim_C8_token_failure_wrapping :
    ∀ (err : NodeError) (token : String),
      ClientTs.getTokenWrap (.ok token) = .ok token
      ∧ ClientTs.getTokenWrap (.error err)
          = .error (ErrorTs.BCError.make
              ⟨⟨"Authentication_TokenRequest", err.message⟩⟩ 401 none)
      ∧ (ErrorTs.BCError.make
          ⟨⟨"Authentication_TokenRequest", err.message⟩⟩ 401 none).category
          = BCErrorCategory.AUTHENTICATION
      ∧ (ErrorTs.BCError.make
          ⟨⟨"Authentication_TokenRequest", err.message⟩⟩ 401 none).retryStrategy
          = BCRetryStrategy.REFRESH_TOKEN
      ∧ (ErrorTs.BCError.make
          ⟨⟨"Authentication_TokenRequest", err.message⟩⟩ 401 none).httpStatus = 401
      ∧ (ErrorTs.BCError.make
          ⟨⟨"Authentication_TokenRequest", err.message⟩⟩ 401 none).message
          = (if err.message = "" then "Unknown Business Central error" else err.message)
      ∧ (ErrorTs.BCError.make
          ⟨⟨"Authentication_TokenRequest", err.message⟩⟩ 401 none).correlationId = none
      ∧ (ErrorTs.BCError.make
          ⟨⟨"Authentication_TokenRequest", err.message⟩⟩ 401 none).validationDetails = none
      ∧ (ErrorTs.BCError.make
          ⟨⟨"Authentication_TokenRequest", err.message⟩⟩ 401 none).originalResponse = none := by
  intro err token
  refine ⟨rfl, rfl, rfl, rfl, rfl, rfl, rfl, rfl, rfl⟩

/-- Claim C9: evaluation of the schema-validation-issues factory present in the
snapshot (`BCError.fromParseResult`). For every issue list, the error has
validation details exactly when the list is nonempty, `getValidationFields`
returns the issue paths in original order, and the strategy is NO_RETRY —
but its category is `CLIENT_ERROR` (subcategory `SCHEMA_VALIDATION`), not a
schema-mismatch category, the divergence from the repository's own test
"creates schema mismatch error". -/
theorem claim_C9_parse_result_factory :
    ∀ (issues : List Issue) (status : Nat) (cid : Option String),
      ((ErrorTs.BCError.fromParseResult issues status cid).hasValidationDetails = true
        ↔ 0 < issues.length)
      ∧ (ErrorTs.BCError.fromParseResult issues status cid).getValidationFields
          = issues.map Issue.path
      ∧ (ErrorTs.BCError.fromParseResult issues status cid).retryStrategy
          = BCRetryStrategy.NO_RETRY
      ∧ (ErrorTs.BCError.fromParseResult issues status cid).category
          = BCErrorCategory.CLIENT_ERROR
      ∧ (ErrorTs.BCError.fromParseResult issues status cid).subcategory
          = BCErrorSubcategory.SCHEMA_VALIDATION
      ∧ (ErrorTs.BCError.fromParseResult issues status cid).httpStatus = status := by
  intro issues status cid
  refine ⟨?_, rfl, rfl, rfl, rfl, rfl⟩
  cases issues <;>
    simp [ErrorTs.BCError.fromParseResult, ErrorTs.BCError.hasValidationDetails,
      ErrorTs.BCError.make]

/-- Claim C1 (as stated) is false at the code `BadRequest_InvalidToken`: the
exact-match table assigns it category CLIENT_ERROR with strategy REFRESH_TOKEN,
while the claimed category→strategy table sends CLIENT_ERROR (an "other"
category) to NO_RETRY. -/
theorem claim_C1_counterexample :
    (categorizeError "BadRequest_InvalidToken").category
        = BCErrorCategory.CLIENT_ERROR
    ∧ (categorizeError "BadRequest_InvalidToken").retryStrategy
        = BCRetryStrategy.REFRESH_TOKEN
    ∧ specStrategyTable BCErrorCategory.CLIENT_ERROR = BCRetryStrategy.NO_RETRY
    ∧ (categorizeError "BadRequest_InvalidToken").retryStrategy
        ≠ specStrategyTable (categorizeError "BadRequest_InvalidToken").category := by
  refine ⟨rfl, rfl, rfl, by decide⟩

/-- Claim C1 (amended): the retry strategy of every error produced by
`categorizeError` or the HTTP-response factory equals the fixed
category→strategy table applied to its category, except for the single
exact-table entry for `BadRequest_InvalidToken` (CLIENT_ERROR with
REFRESH_TOKEN); the network-failure factory always sets category
NETWORK_ERROR and assigns the table's EXPONENTIAL_BACKOFF except for the
native codes ENOTFOUND and the certificate errors, which get NO_RETRY. -/
theorem claim_C1_strategy_table_amended :
    (∀ code : String,
        (categorizeError code).retryStrategy
            = specStrategyTable (categorizeError code).category
          ∨ categorizeError code = invalidTokenGroup)
    ∧ (∀ (status : Nat) (data : JsonValue) (cid : String),
        (ErrorTs.BCError.fromHttpResponse status data cid).retryStrategy
            = specStrategyTable
                (ErrorTs.BCError.fromHttpResponse status data cid).category
          ∨ ((ErrorTs.BCError.fromHttpResponse status data cid).category
                = BCErrorCategory.CLIENT_ERROR
              ∧ (ErrorTs.BCError.fromHttpResponse status data cid).subcategory
                = BCErrorSubcategory.INVALID_TOKEN
              ∧ (ErrorTs.BCError.fromHttpResponse status data cid).retryStrategy
                = BCRetryStrategy.REFRESH_TOKEN))
    ∧ (∀ ne : NodeError,
        (ErrorTs.BCError.fromNetworkError ne).category
            = BCErrorCategory.NETWORK_ERROR
        ∧ (ErrorTs.BCError.fromNetworkError ne).retryStrategy
            = (if ne.code ∈ ErrorTs.noRetryNetworkCodes
                then BCRetryStrategy.NO_RETRY
                else specStrategyTable BCErrorCategory.NETWORK_ERROR)) := by
  refine ⟨categorize_strategy_law, ?_, ?_⟩
  · intro status data cid
    unfold ErrorTs.BCError.fromHttpResponse
    split
    · next er _ =>
      simp only [ErrorTs.BCError.make]
      rcases categorize_strategy_law er.error.code with h | h
      · left; exact h
      · right; rw [h]; exact ⟨rfl, rfl, rfl⟩
    · next => left; rfl
  · intro ne
    rcases ne with ⟨msg, code⟩
    refine ⟨rfl, ?_⟩
    rcases code with _ | c
    · rw [show (⟨msg, none⟩ : NodeError).code = none from rfl,
        if_neg (by decide : ¬(none : Option String) ∈ ErrorTs.noRetryNetworkCodes)]
      rfl
    · simp only [ErrorTs.BCError.fromNetworkError]
      split
      all_goals simp_all [ErrorTs.noRetryNetworkCodes, specStrategyTable]

/-- Claim C2: for every code string, `categorizeError` returns the exact-match
table entry when one exists; otherwise, when the code starts with one of the
prefix-table keys (at most one of which can ever apply, since no key is a
prefix of another — making the applicable one trivially the longest), the
result is that prefix's default; otherwise the UNKNOWN / NO_RETRY fallback.
It is a total Lean function, hence total and deterministic. -/
theorem claim_C2_categorize_priority (code : String) :
    (∀ g, ERROR_CODE_MAPPINGS.lookup code = some g → categorizeError code = g)
    ∧ (ERROR_CODE_MAPPINGS.lookup code = none →
        ∀ p ∈ PREFIX_DEFAULTS, jsStartsWith code p.1 = true →
          categorizeError code = p.2)
    ∧ (ERROR_CODE_MAPPINGS.lookup code = none →
        (∀ p ∈ PREFIX_DEFAULTS, jsStartsWith code p.1 = false) →
        categorizeError code = unknownGroup)
    ∧ unknownGroup.category = BCErrorCategory.UNKNOWN
    ∧ unknownGroup.retryStrategy = BCRetryStrategy.NO_RETRY := by
  refine ⟨?_, ?_, ?_, rfl, rfl⟩
  · intro g h
    unfold categorizeError
    rw [h]
  · intro h p hp hs
    unfold categorizeError
    rw [h]
    simp only [PREFIX_DEFAULTS, List.mem_cons, List.not_mem_nil, or_false] at hp
    have hfind :
        PREFIX_DEFAULTS.find? (fun q => jsStartsWith code q.1) = some p := by
      rcases hp with rfl | rfl | rfl | rfl | rfl | rfl
      · simp only [PREFIX_DEFAULTS]
        rw [List.find?_cons_of_pos _ (by simpa using hs)]
      · have h1 : jsStartsWith code "BadRequest_" = false :=
          jsStartsWith_excl code "Request_" "BadRequest_" (by decide) (by decide) hs
        simp only [PREFIX_DEFAULTS]
        rw [List.find?_cons_of_neg _ (by simp [h1]),
          List.find?_cons_of_pos _ (by simpa using hs)]
      · have h1 : jsStartsWith code "BadRequest_" = false :=
          jsStartsWith_excl code "Internal_" "BadRequest_" (by decide) (by decide) hs
        have h2 : jsStartsWith code "Request_" = false :=
          jsStartsWith_excl code "Internal_" "Request_" (by decide) (by decide) hs
        simp only [PREFIX_DEFAULTS]
        rw [List.find?_cons_of_neg _ (by simp [h1]),
          List.find?_cons_of_neg _ (by simp [h2]),
          List.find?_cons_of_pos _ (by simpa using hs)]
      · have h1 : jsStartsWith code "BadRequest_" = false :=
          jsStartsWith_excl code "Application_" "BadRequest_" (by decide) (by decide) hs
        have h2 : jsStartsWith code "Request_" = false :=
          jsStartsWith_excl code "Application_" "Request_" (by decide) (by decide) hs
        have h3 : jsStartsWith code "Internal_" = false :=
          jsStartsWith_excl code "Application_" "Internal_" (by decide) (by decide) hs
        simp only [PREFIX_DEFAULTS]
        rw [List.find?_cons_of_neg _ (by simp [h1]),
          List.find?_cons_of_neg _ (by simp [h2]),
          List.find?_cons_of_neg _ (by simp [h3]),
          List.find?_cons_of_pos _ (by simpa using hs)]
      · have h1 : jsStartsWith code "BadRequest_" = false :=
          jsStartsWith_excl code "Authentication_" "BadRequest_" (by decide) (by decide) hs
        have h2 : jsStartsWith code "Request_" = false :=
          jsStartsWith_excl code "Authentication_" "Request_" (by decide) (by decide) hs
        have h3 : jsStartsWith code "Internal_" = false :=
          jsStartsWith_excl code "Authentication_" "Internal_" (by decide) (by decide) hs
        have h4 : jsStartsWith code "Application_" = false :=
          jsStartsWith_excl code "Authentication_" "Application_" (by decide) (by decide) hs
        simp only [PREFIX_DEFAULTS]
        rw [List.find?_cons_of_neg _ (by simp [h1]),
          List.find?_cons_of_neg _ (by simp [h2]),
          List.find?_cons_of_neg _ (by simp [h3]),
          List.find?_cons_of_neg _ (by simp [h4]),
          List.find?_cons_of_pos _ (by simpa using hs)]
      · have h1 : jsStartsWith code "BadRequest_" = false :=
          jsStartsWith_excl code "Authorization_" "BadRequest_" (by decide) (by decide) hs
        have h2 : jsStartsWith code "Request_" = false :=
          jsStartsWith_excl code "Authorization_" "Request_" (by decide) (by decide) hs
        have h3 : jsStartsWith code "Internal_" = false :=
          jsStartsWith_excl code "Authorization_" "Internal_" (by decide) (by decide) hs
        have h4 : jsStartsWith code "Application_" = false :=
          jsStartsWith_excl code "Authorization_" "Application_" (by decide) (by decide) hs
        have h5 : jsStartsWith code "Authentication_" = false :=
          jsStartsWith_excl code "Authorization_" "Authentication_" (by decide) (by decide) hs
        simp only [PREFIX_DEFAULTS]
        rw [List.find?_cons_of_neg _ (by simp [h1]),
          List.find?_cons_of_neg _ (by simp [h2]),
          List.find?_cons_of_neg _ (by simp [h3]),
          List.find?_cons_of_neg _ (by simp [h4]),
          List.find?_cons_of_neg _ (by simp [h5]),
          List.find?_cons_of_pos _ (by simpa using hs)]
    rw [hfind]
  · intro h hall
    unfold categorizeError
    rw [h]
    have hfind :
        PREFIX_DEFAULTS.find? (fun q => jsStartsWith code q.1) = none :=
      List.find?_eq_none.mpr (fun q hq => by simp [hall q hq])
    rw [hfind]

/-- Witness for claim C2: concrete instances of the prefix-default clause (an
unmapped `Internal_`-prefixed code) and the fallback clause (a completely
unrecognized code). -/
theorem claim_C2_witness :
    categorizeError "Internal_SomethingNew"
        = ⟨BCErrorCategory.SERVER_ERROR, BCErrorSubcategory.DATABASE_CONNECTION,
            BCRetryStrategy.EXPONENTIAL_BACKOFF⟩
    ∧ categorizeError "Custom_UnmappedCode" = unknownGroup :=
  ⟨(claim_C2_categorize_priority "Internal_SomethingNew").2.1 (by decide)
      ("Internal_", ⟨BCErrorCategory.SERVER_ERROR,
        BCErrorSubcategory.DATABASE_CONNECTION,
        BCRetryStrategy.EXPONENTIAL_BACKOFF⟩) (by decide) (by decide),
    (claim_C2_categorize_priority "Custom_UnmappedCode").2.2.1 (by decide)
      (by decide)⟩

/-- Claim C4 (as stated) is false: the schema-validation-issues factory
produces a structured error in which neither `serverError` nor `responseData`
is populated, so "exactly one" does not hold (only "at most one" does). -/
theorem claim_C4_counterexample :
    (SpecModel.BCError.fromSchemaValidation [] 200).serverError = none
    ∧ (SpecModel.BCError.fromSchemaValidation [] 200).responseData = none :=
  ⟨rfl, rfl⟩

/-- Claim C4 (amended): for every structured error constructed by the
factories, at most one of `serverError` and `responseData` is populated and
never both: the HTTP-response factory populates `serverError` exactly when the
body matched the error envelope and `responseData` exactly when it did not
(via the unexpected-response path); the unexpected-response factory populates
only `responseData`; the schema-validation factory populates neither (its
`validationDetails` is independent); the token, network-failure and
parse-failure factories populate neither. -/
theorem claim_C4_payload_exclusivity_amended :
    (∀ (cat : String → SpecModel.SpecCategory × BCRetryStrategy)
       (status : Nat) (data : JsonValue) (cid : Option String),
        (SpecModel.BCError.fromHttpResponse cat status data cid).serverError.isSome
            = envelopeMatches data
        ∧ (SpecModel.BCError.fromHttpResponse cat status data cid).responseData.isSome
            = !envelopeMatches data)
    ∧ (∀ (data : JsonValue) (status : Nat) (cid : Option String),
        (SpecModel.BCError.fromUnexpectedResponse data status cid).serverError = none
        ∧ (SpecModel.BCError.fromUnexpectedResponse data status cid).responseData
            = some data)
    ∧ (∀ (issues : List Issue) (status : Nat),
        (SpecModel.BCError.fromSchemaValidation issues status).serverError = none
        ∧ (SpecModel.BCError.fromSchemaValidation issues status).responseData = none
        ∧ (SpecModel.BCError.fromSchemaValidation issues status).validationDetails
            = some issues)
    ∧ (∀ err : NodeError,
        (SpecModel.BCError.fromGetToken err).serverError = none
        ∧ (SpecModel.BCError.fromGetToken err).responseData = none)
    ∧ (∀ err : NodeError,
        (SpecModel.BCError.fromNetworkFailure err).serverError = none
        ∧ (SpecModel.BCError.fromNetworkFailure err).responseData = none)
    ∧ (∀ (err : NodeError) (status : Nat) (cid : Option String),
        (SpecModel.BCError.fromJsonFailure err status cid).serverError = none
        ∧ (SpecModel.BCError.fromJsonFailure err status cid).responseData = none) := by
  refine ⟨?_, ?_, ?_, ?_, ?_, ?_⟩
  · intro cat status data cid
    unfold SpecModel.BCError.fromHttpResponse envelopeMatches
    cases h : validateErrorResponse data <;>
      simp [SpecModel.BCError.fromUnexpectedResponse]
  · intro data status cid; exact ⟨rfl, rfl⟩
  · intro issues status; exact ⟨rfl, rfl, rfl⟩
  · intro err; exact ⟨rfl, rfl⟩
  · intro err; exact ⟨rfl, rfl⟩
  · intro err status cid; exact ⟨rfl, rfl⟩

/-- Claim C6: in every iteration of the list loop, a truthy continuation link
makes the extracted `skipToken` parameter the cursor for the next request, an
absent link leaves the cursor unchanged, and — for any envelope whose `value`
is an array — the iteration terminates (returns `done`) exactly when that
array is empty, never merely because the link is absent. -/
theorem claim_C6_cursor_and_termination :
    (∀ (extract : String → Option String) (fields : List (String × JsonValue))
       (tok l : String),
        fields.lookup "@odata.nextLink" = some (JsonValue.str l) → l ≠ "" →
        ApiPageTs.nextCursor extract (JsonValue.obj fields) tok
          = (extract l).getD "")
    ∧ (∀ (extract : String → Option String) (fields : List (String × JsonValue))
        (tok : String),
        fields.lookup "@odata.nextLink" = none →
        ApiPageTs.nextCursor extract (JsonValue.obj fields) tok = tok)
    ∧ (∀ (T : Type) (schema : JsonValue → Except (List Issue) T)
        (extract : String → Option String) (maxResults : Option Nat)
        (fields : List (String × JsonValue)) (tok : String) (cnt : Nat)
        (items : List JsonValue),
        fields.lookup "value" = some (JsonValue.arr items) →
        ((∃ t, ApiPageTs.listStep schema extract maxResults
            (JsonValue.obj fields) tok cnt = ApiPageTs.StepOutcome.done t)
          ↔ items = [])) := by
  refine ⟨?_, ?_, ?_⟩
  · intro extract fields tok l h hne
    unfold ApiPageTs.nextCursor ApiPageTs.envNextLinkStr
    dsimp only
    rw [h]
    simp [hne]
  · intro extract fields tok h
    unfold ApiPageTs.nextCursor ApiPageTs.envNextLinkStr
    dsimp only
    rw [h]
  · intro T schema extract maxResults fields tok cnt items h
    constructor
    · rintro ⟨t, ht⟩
      unfold ApiPageTs.listStep ApiPageTs.envValueArray at ht
      dsimp only at ht
      rw [h] at ht
      cases items with
      | nil => rfl
      | cons x xs =>
        simp only [List.isEmpty_cons, if_false, reduceIte] at ht
        exact absurd ht (processItems_ne_done _ _ _ _ _ _ _)
    · rintro rfl
      refine ⟨ApiPageTs.nextCursor extract (JsonValue.obj fields) tok, ?_⟩
      unfold ApiPageTs.listStep ApiPageTs.envValueArray
      dsimp only
      rw [h]
      rfl

/-- Witness for claim C6: a concrete envelope with a continuation link and a
nonempty `value` shows the cursor update, and a concrete empty-`value`
envelope (with the link absent) terminates the loop. -/
theorem claim_C6_witness :
    ApiPageTs.nextCursor (fun _ => some "tok9")
        (JsonValue.obj
          [("value", JsonValue.arr []), ("@odata.nextLink", JsonValue.str "L")])
        "old" = "tok9"
    ∧ (∃ t, ApiPageTs.listStep Scenario.idSchema Scenario.idExtract none
        (JsonValue.obj [("value", JsonValue.arr [])]) "old" 0
          = ApiPageTs.StepOutcome.done t) :=
  ⟨claim_C6_cursor_and_termination.1 (fun _ => some "tok9")
      [("value", JsonValue.arr []), ("@odata.nextLink", JsonValue.str "L")]
      "old" "L" rfl (by decide),
    (claim_C6_cursor_and_termination.2.2 JsonValue Scenario.idSchema
      Scenario.idExtract none [("value", JsonValue.arr [])] "old" 0 []
      rfl).mpr rfl⟩

/-- Claim C7 (as stated) is false in its message clause: at a concrete
envelope without a `value` field, the iterator fails with the structured
error whose `message` is the generic schema-validation text, not the fixed
missing-value text (which is carried in `validationDetails` instead). -/
theorem claim_C7_counterexample :
    ApiPageTs.listStep Scenario.idSchema Scenario.idExtract none
        (JsonValue.obj []) "" 0
      = ApiPageTs.StepOutcome.failPage
          (ApiPageTs.missingValueError (JsonValue.obj []))
    ∧ (ApiPageTs.missingValueError (JsonValue.obj [])).message
        = "Schema validation failed. The provided schema does not match Business Central's response format."
    ∧ (ApiPageTs.missingValueError (JsonValue.obj [])).message
        ≠ "Missing value property on list response."
    ∧ (ApiPageTs.missingValueError (JsonValue.obj [])).message
        ≠ "missing value property on list response" := by
  refine ⟨rfl, rfl, by decide, by decide⟩

/-- Claim C7 (amended): for every object envelope whose `value` field is
missing or not an array, the list iterator fails immediately — yielding no
item and independently of the per-item schema, which it never consults — with
the schema-validation structured error whose `validationDetails` carry the
fixed text "Missing value property on list response." at path `root.value`,
whose `responseData` equals the malformed envelope, and whose category and
strategy are SCHEMA_MISMATCH / NO_RETRY. -/
theorem claim_C7_missing_value_amended :
    ∀ (T : Type) (schema : JsonValue → Except (List Issue) T)
      (extract : String → Option String) (maxResults : Option Nat)
      (fields : List (String × JsonValue)) (tok : String) (cnt : Nat),
      ApiPageTs.envValueArray (JsonValue.obj fields) = none →
      ApiPageTs.listStep schema extract maxResults (JsonValue.obj fields) tok cnt
          = ApiPageTs.StepOutcome.failPage
              (ApiPageTs.missingValueError (JsonValue.obj fields))
      ∧ (ApiPageTs.missingValueError (JsonValue.obj fields)).responseData
          = some (JsonValue.obj fields)
      ∧ (ApiPageTs.missingValueError (JsonValue.obj fields)).validationDetails
          = some [⟨"Missing value property on list response.", "root.value"⟩]
      ∧ (ApiPageTs.missingValueError (JsonValue.obj fields)).category
          = SpecModel.SpecCategory.SCHEMA_MISMATCH
      ∧ (ApiPageTs.missingValueError (JsonValue.obj fields)).retryStrategy
          = BCRetryStrategy.NO_RETRY := by
  intro T schema extract maxResults fields tok cnt h
  refine ⟨?_, rfl, rfl, rfl, rfl⟩
  unfold ApiPageTs.listStep
  dsimp only
  rw [h]

/-- Witness for claim C7 (amended): a concrete envelope `{foo: 1}` without a
`value` field makes the iterator fail with the structured missing-value
error. -/
theorem claim_C7_witness :
    ApiPageTs.listStep Scenario.idSchema Scenario.idExtract none
        (JsonValue.obj [("foo", JsonValue.num 1)]) "" 0
      = ApiPageTs.StepOutcome.failPage
          (ApiPageTs.missingValueError (JsonValue.obj [("foo", JsonValue.num 1)])) :=
  (claim_C7_missing_value_amended JsonValue Scenario.idSchema Scenario.idExtract
    none [("foo", JsonValue.num 1)] "" 0 rfl).1

end BC
